import Mathlib

/-!
Verification development for the multi-finger gripper controller of this
repository (file omnigibson/controllers/multi_finger_gripper_controller.py).

Numeric values are embedded as exact rationals.  Vectors (numpy arrays) are
embedded as lists of rationals; the numpy fancy-indexing `arr[self.dof_idx]`
becomes `gather`.  Python exceptions (failed assertions, dictionary lookups
on missing keys) are embedded with `Except String` / `Option`.

Two pieces the controller file imports are not part of the sources and are
modelled from the specification where indicated: the `ControlType` registry
(motor-type strings position / velocity / effort) and the raise-on-invalid
behaviour of `assert_valid_key`.
-/

/-- Embedding of `np.mean` on a rational vector (sum divided by length). -/
def npMean (xs : List ℚ) : ℚ := xs.sum / xs.length

/-- Embedding of elementwise `np.abs`. -/
def npAbs (xs : List ℚ) : List ℚ := xs.map (fun x => |x|)

/-- Embedding of elementwise subtraction of two aligned vectors. -/
def npSub (xs ys : List ℚ) : List ℚ := List.zipWith (fun a b => a - b) xs ys

/-- Embedding of numpy fancy indexing `xs[idx]` with an integer index array
(indices are assumed in range, as the callers guarantee). -/
def gather (xs : List ℚ) (idx : List Nat) : List ℚ := idx.map (fun i => xs.getD i 0)

/-- Embedding of `np.all(xs < t)` for a vector `xs` and scalar threshold `t`. -/
def allBelow (xs : List ℚ) (t : ℚ) : Prop := ∀ x ∈ xs, x < t

instance (xs : List ℚ) (t : ℚ) : Decidable (allBelow xs t) :=
  List.decidableBAll _ xs

/-- Embedding of `np.all((lo <= pos) * (pos <= hi))` over aligned vectors. -/
def withinLimits (lo pos hi : List ℚ) : Prop :=
  ∀ p ∈ List.zip lo (List.zip pos hi), p.1 ≤ p.2.1 ∧ p.2.1 ≤ p.2.2

instance (lo pos hi : List ℚ) : Decidable (withinLimits lo pos hi) :=
  List.decidableBAll _ _

/-- Sequencing of fallible computations: an error aborts the caller, the way
an uncaught Python exception propagates. -/
def exceptSeq {α β : Type} (e : Except String α) (f : α → Except String β) :
    Except String β :=
  match e with
  | .error msg => .error msg
  | .ok a => f a

@[simp]
theorem exceptSeq_ok {α β : Type} (a : α) (f : α → Except String β) :
    exceptSeq (.ok a) f = f a := rfl

@[simp]
theorem exceptSeq_error {α β : Type} (msg : String) (f : α → Except String β) :
    exceptSeq (.error msg) f = .error msg := rfl

/-- Modelled from the spec: the Control-Type Registry tag,
one of Position / Velocity / Effort (the registry itself is not among the
source files; the spec fixes the tag set). -/
inductive ControlType where
  | POSITION
  | VELOCITY
  | EFFORT
deriving DecidableEq, Repr

/-- Modelled from the spec: the set of valid motor-type strings accepted at
construction ("position" / "velocity" / "effort"). -/
def ControlType.VALID_TYPES_STR : List String := ["position", "velocity", "effort"]

/-- Modelled from the spec: `ControlType.get_type` maps a motor-type string to
its tag; an unknown string raises (here: `none`). -/
def ControlType.get_type (s : String) : Option ControlType :=
  if s = "position" then some .POSITION
  else if s = "velocity" then some .VELOCITY
  else if s = "effort" then some .EFFORT
  else none

/-- Modelled from the spec: the grasp-state classification enum
(True / False / Unknown). -/
inductive IsGraspingState where
  | TRUE
  | FALSE
  | UNKNOWN
deriving DecidableEq, Repr

/-- The per-control-type limits table `control_limits`: for each control type a
pair (min vector, max vector), indexed over the full robot joint vector. -/
structure ControlLimits where
  position : List ℚ × List ℚ
  velocity : List ℚ × List ℚ
  effort : List ℚ × List ℚ
deriving DecidableEq, Repr

/-- Lookup `control_limits[control_type]`. -/
def ControlLimits.get (L : ControlLimits) : ControlType → List ℚ × List ℚ
  | .POSITION => L.position
  | .VELOCITY => L.velocity
  | .EFFORT => L.effort

/-- The per-step telemetry snapshot `control_dict` with its joint channels. -/
structure ControlDict where
  joint_position : List ℚ
  joint_velocity : List ℚ
  joint_effort : List ℚ
deriving DecidableEq, Repr

/-- Lookup of the channel `control_dict["joint_" + motor_type]`; a missing key
raises KeyError in Python (here: `none`). -/
def ControlDict.jointChannel (cd : ControlDict) (motorType : String) : Option (List ℚ) :=
  if motorType = "position" then some cd.joint_position
  else if motorType = "velocity" then some cd.joint_velocity
  else if motorType = "effort" then some cd.joint_effort
  else none

/-- A `command_output_limits` argument: the "default" sentinel string, Python
None, or an explicit numeric range. -/
inductive LimitsSpec where
  | default
  | nolimits
  | explicit (lo hi : ℚ)
deriving DecidableEq, Repr

/-- The module-level VALID_MODES set (source lines 8-14).  The source set
literal has no comma between the adjacent string literals "smooth_delta" and
"independent" (lines 12-13), and Python concatenates adjacent string literals,
so the set holds four strings, the last being "smooth_deltaindependent". -/
def VALID_MODES : List String :=
  ["binary", "ternary", "smooth", "smooth_delta" ++ "independent"]

/-- Module macro `m.POS_TOLERANCE` (source line 21). -/
def POS_TOLERANCE : ℚ := 2 / 1000

/-- Module macro `m.VEL_TOLERANCE` (source line 22). -/
def VEL_TOLERANCE : ℚ := 1 / 100

/-- The controller state: the constructor-fixed configuration plus the mutable
fields `_control` (last issued control, written by the base class after each
step; `none` before the first step) and `_is_grasping` (the cached grasp
state). -/
structure MultiFingerGripperController where
  motorType : String
  mode : String
  inverted : Bool
  openQpos : Option (List ℚ)
  closedQpos : Option (List ℚ)
  limitTolerance : ℚ
  controlLimits : ControlLimits
  dofIdx : List Nat
  control : Option (List ℚ)
  isGrasping : IsGraspingState
deriving DecidableEq, Repr

namespace MultiFingerGripperController

/-- Embedding of `__init__` (source lines 36-129): validates the motor type
against the registry, the mode against VALID_MODES, overrides the output
limits for binary / ternary, and rejects smooth_delta combined with the
"default" output-limit sentinel.  The raise-on-invalid behaviour of
`assert_valid_key` is modelled from the spec (configuration errors are fatal
at construction).  The source lowercases the motor-type argument
(`motor_type.lower()`, lines 99-100); the embedding takes the lowercased
string as input.  The base-class `__init__` (not among the sources) stores
the normalization configuration and is not needed by the claims. -/
def init (motorType : String) (controlLimits : ControlLimits) (dofIdx : List Nat)
    (commandOutputLimits : LimitsSpec) (inverted : Bool) (mode : String)
    (openQpos closedQpos : Option (List ℚ)) (limitTolerance : ℚ) :
    Except String MultiFingerGripperController :=
  if ¬ (motorType ∈ ControlType.VALID_TYPES_STR) then
    .error "Invalid motor_type"
  else if ¬ (mode ∈ VALID_MODES) then
    .error "Invalid mode for multi finger gripper"
  else
    let commandOutputLimits :=
      if mode = "binary" ∨ mode = "ternary" then LimitsSpec.explicit (-1) 1
      else commandOutputLimits
    if mode = "smooth_delta" ∧ commandOutputLimits = LimitsSpec.default then
      .error "Cannot use default command output limits in delta commands mode"
    else
      .ok { motorType := motorType
            mode := mode
            inverted := inverted
            openQpos := openQpos
            closedQpos := closedQpos
            limitTolerance := limitTolerance
            controlLimits := controlLimits
            dofIdx := dofIdx
            control := none
            isGrasping := IsGraspingState.FALSE }

/-- The property `command_dim` (source lines 325-327): the number of gripper
joints in independent mode, otherwise 1.  `_mode` and `dof_idx` are assigned
only at construction, so this is fixed for the lifetime of an instance. -/
def command_dim (c : MultiFingerGripperController) : Nat :=
  if c.mode = "independent" then c.dofIdx.length else 1

/-- The reflection applied to the command when `inverted` is set
(source line 149): `command = input_max - (command - input_min)`,
elementwise over the command vector. -/
def reflectCommand (inputMin inputMax : ℚ) (cmd : List ℚ) : List ℚ :=
  cmd.map (fun x => inputMax - (x - inputMin))

/-- Embedding of the `_preprocess_command` override (source lines 138-152):
broadcast the command to `command_dim` copies of its first entry unless the
mode is independent, then reflect it when `inverted` is set.  The generic
normalization done afterwards by the base-class method (not among the
sources) is outside this function.  `inputMin` / `inputMax` are the stored
`_command_input_limits`. -/
def preprocess_command (c : MultiFingerGripperController) (inputMin inputMax : ℚ)
    (command : List ℚ) : List ℚ :=
  let command :=
    if c.mode ≠ "independent" then
      List.replicate c.command_dim (command.headD 0)
    else command
  if c.inverted then reflectCommand inputMin inputMax command else command

/-- The vector `control_limits[ct][1][dof_idx]` (the control-type upper limit
at the controlled joints). -/
def controlUpperAtDof (c : MultiFingerGripperController) (ct : ControlType) : List ℚ :=
  gather (c.controlLimits.get ct).2 c.dofIdx

/-- The vector `control_limits[ct][0][dof_idx]` (the control-type lower limit
at the controlled joints). -/
def controlLowerAtDof (c : MultiFingerGripperController) (ct : ControlType) : List ℚ :=
  gather (c.controlLimits.get ct).1 c.dofIdx

/-- The mode-dispatch step of `compute_control` that selects the raw output
`u` (source lines 178-215).  The source file carries an unresolved textual
merge in this region (markers at lines 181, 205 and 212): the first variant
holds the ternary and smooth_delta branches together with a binary branch
that ignores `open_qpos` / `closed_qpos`; the second variant holds only the
binary branch, honouring `open_qpos` / `closed_qpos`.  The embedding takes
each branch from the side where it appears in full: the binary branch from
the second variant (lines 206-211) and the ternary and smooth_delta branches
from the first (lines 188-202), which is also the resolution the spec
describes.  An unknown motor type raises at the registry or telemetry lookup
(here: `.error`). -/
def select_u (c : MultiFingerGripperController) (target : List ℚ) (cd : ControlDict) :
    Except String (List ℚ) :=
  if c.mode = "binary" then
    (ControlType.get_type c.motorType).elim (.error "invalid motor type") (fun ct =>
      if 0 ≤ target.headD 0 then
        .ok ((c.openQpos).getD (c.controlUpperAtDof ct))
      else
        .ok ((c.closedQpos).getD (c.controlLowerAtDof ct)))
  else if c.mode = "ternary" then
    if 33 / 100 < target.headD 0 then
      (ControlType.get_type c.motorType).elim (.error "invalid motor type") (fun ct =>
        .ok (c.controlUpperAtDof ct))
    else if target.headD 0 < -(33 / 100) then
      (ControlType.get_type c.motorType).elim (.error "invalid motor type") (fun ct =>
        .ok (c.controlLowerAtDof ct))
    else
      (cd.jointChannel c.motorType).elim (.error "missing telemetry channel") (fun chan =>
        .ok (gather chan c.dofIdx))
  else if c.mode = "smooth_delta" then
    (cd.jointChannel c.motorType).elim (.error "missing telemetry channel") (fun chan =>
      .ok ((gather chan c.dofIdx).map (fun b => b + target.headD 0)))
  else
    .ok target

/-- The limit clamp of `compute_control` (source lines 219-226): a component
of `u` is zeroed when its joint position is within `limit_tolerance` of a
position limit and the component's sign points further past that limit. -/
def clampNearLimits (c : MultiFingerGripperController) (u jointPos : List ℚ) : List ℚ :=
  List.zipWith
    (fun ui pmm =>
      if (pmm.1 > pmm.2.2 - c.limitTolerance ∧ ui > 0)
          ∨ (pmm.1 < pmm.2.1 + c.limitTolerance ∧ ui < 0) then 0 else ui)
    u
    (List.zip jointPos
      (List.zip (gather c.controlLimits.position.1 c.dofIdx)
        (gather c.controlLimits.position.2 c.dofIdx)))

/-- Embedding of `_update_grasping_state` (source lines 234-308), returning
the new grasp state; a failed Python assertion becomes `.error`. -/
def update_grasping_state (c : MultiFingerGripperController) (cd : ControlDict) :
    Except String IsGraspingState :=
  if c.mode = "independent" then .ok .UNKNOWN
  else
    (c.control).elim (.ok .FALSE) (fun ctrl =>
      if ¬ (POS_TOLERANCE > c.limitTolerance) then
        .error "Joint position tolerance for is_grasping heuristics too small"
      else
        let fingerPos := gather cd.joint_position c.dofIdx
        if c.motorType = "position" ∧ npMean (npAbs (npSub fingerPos ctrl)) < POS_TOLERANCE then
          .ok .UNKNOWN
        else if (c.motorType = "velocity" ∨ c.motorType = "torque")
            ∧ npMean (npAbs ctrl) < VEL_TOLERANCE then
          .ok .UNKNOWN
        else
          let fingerVel := gather cd.joint_velocity c.dofIdx
          let minPos := gather c.controlLimits.position.1 c.dofIdx
          let maxPos := gather c.controlLimits.position.2 c.dofIdx
          if ¬ withinLimits minPos fingerPos maxPos then
            .error "Got invalid finger joint positions when checking for grasp"
          else
            let validGraspPos :=
              npMean (npSub fingerPos minPos) > POS_TOLERANCE
                ∧ npMean (npSub maxPos fingerPos) > POS_TOLERANCE
            let validGraspVel := allBelow (npAbs fingerVel) VEL_TOLERANCE
            .ok (if validGraspPos ∧ validGraspVel then .TRUE else .FALSE))

/-- Embedding of `compute_control` (source lines 158-232): select the raw
output by mode, zero out components near the position limits when the motor
type is in the literal set written in the source, namely velocity or
"torque" (line 218), run the grasp-state update, and return the control
together with the new grasp state. -/
def compute_control (c : MultiFingerGripperController) (target : List ℚ) (cd : ControlDict) :
    Except String (List ℚ × IsGraspingState) :=
  exceptSeq (c.select_u target cd) (fun u0 =>
    let jointPos := gather cd.joint_position c.dofIdx
    let u := if c.motorType = "velocity" ∨ c.motorType = "torque"
      then c.clampNearLimits u0 jointPos else u0
    exceptSeq (c.update_grasping_state cd) (fun g => .ok (u, g)))

/-- Embedding of `compute_no_op_goal` (source lines 310-312): the target is
the zero vector of length `command_dim`. -/
def compute_no_op_goal (c : MultiFingerGripperController) : List ℚ :=
  List.replicate c.command_dim 0

end MultiFingerGripperController

open MultiFingerGripperController

/-! Concrete fixtures used by witnesses and counterexamples: a single gripper
joint with position range [0, 0.05], velocity and effort ranges [-1, 1]. -/

/-- A limits table for one gripper joint: position in [0, 1/20], velocity and
effort in [-1, 1]. -/
def limitsA : ControlLimits :=
  { position := ([0], [5 / 100]), velocity := ([-1], [1]), effort := ([-1], [1]) }

/-- Telemetry with the joint at `max_pos - 0.0005`, i.e. within the default
limit tolerance 0.001 of its upper position limit, and at rest. -/
def nearLimitDict : ControlDict :=
  { joint_position := [5 / 100 - 1 / 2000], joint_velocity := [0], joint_effort := [0] }

/-- Telemetry with the joint mid-travel (position 1/40, well clear of both
limits) and at rest. -/
def midTravelDict : ControlDict :=
  { joint_position := [1 / 40], joint_velocity := [0], joint_effort := [0] }

/-- A binary-mode velocity-motor controller over `limitsA`, no qpos
overrides, no control issued yet. -/
def velBinaryCtrl : MultiFingerGripperController :=
  { motorType := "velocity", mode := "binary", inverted := false,
    openQpos := none, closedQpos := none, limitTolerance := 1 / 1000,
    controlLimits := limitsA, dofIdx := [0], control := none, isGrasping := .FALSE }

/-- The same controller with motor type effort. -/
def effBinaryCtrl : MultiFingerGripperController :=
  { velBinaryCtrl with motorType := "effort" }

/-- An effort-motor controller whose last issued control was exactly zero. -/
def effStoppedCtrl : MultiFingerGripperController :=
  { velBinaryCtrl with motorType := "effort", control := some [0] }

/-- A velocity-motor controller whose last issued control was 1/2 (well above
VEL_TOLERANCE in mean absolute value). -/
def velMovingCtrl : MultiFingerGripperController :=
  { velBinaryCtrl with control := some [1 / 2] }

/-- A binary-mode position-motor controller with an explicit open_qpos. -/
def posBinaryCtrl : MultiFingerGripperController :=
  { velBinaryCtrl with motorType := "position", openQpos := some [3 / 100] }

/-- A ternary-mode position-motor controller. -/
def posTernaryCtrl : MultiFingerGripperController :=
  { velBinaryCtrl with motorType := "position", mode := "ternary" }

/-- An independent-mode controller over two joints. -/
def indepCtrl : MultiFingerGripperController :=
  { velBinaryCtrl with mode := "independent", dofIdx := [0, 1] }

/-- The controller that construction with the concatenated junk mode string
actually produces (used in the C1 counterexample). -/
def junkModeCtrl : MultiFingerGripperController :=
  { motorType := "position", mode := "smooth_deltaindependent", inverted := false,
    openQpos := none, closedQpos := none, limitTolerance := 1 / 1000,
    controlLimits := limitsA, dofIdx := [0], control := none, isGrasping := .FALSE }

/-- C1: the claim states that construction accepts exactly the five mode
strings binary, ternary, smooth, smooth_delta, independent.  The source set
literal VALID_MODES (lines 8-14) misses the comma between the adjacent string
literals "smooth_delta" and "independent" (lines 12-13), which Python
concatenates, so the set actually holds binary, ternary, smooth and
"smooth_deltaindependent": construction rejects the documented modes
smooth_delta and independent and accepts the concatenated junk string,
contradicting the controller docstring (lines 75-85) and every later branch
on those mode strings (lines 117, 140, 248, 327). -/
theorem valid_modes_missing_comma_rejects_spec_modes :
    "independent" ∉ VALID_MODES
  ∧ "smooth_delta" ∉ VALID_MODES
  ∧ "smooth_deltaindependent" ∈ VALID_MODES
  ∧ MultiFingerGripperController.init "position" limitsA [0] .nolimits false
      "independent" none none (1 / 1000)
      = .error "Invalid mode for multi finger gripper"
  ∧ ∃ c, MultiFingerGripperController.init "position" limitsA [0] .nolimits false
      "smooth_deltaindependent" none none (1 / 1000) = .ok c := by
  refine ⟨by decide, by decide, by decide, ?_, junkModeCtrl, ?_⟩ <;>
    simp [MultiFingerGripperController.init, VALID_MODES, ControlType.VALID_TYPES_STR,
      junkModeCtrl]

/-- C7: constructing with mode smooth_delta and the "default" output-limit
sentinel raises a configuration error, whatever the remaining arguments are.
With the VALID_MODES comma slip (see C1) the failure fires already at the
mode-validity check (line 101); the dedicated assertion at lines 117-119
would also fire if the mode check passed. -/
theorem smooth_delta_default_output_limits_rejected (motorType : String)
    (L : ControlLimits) (dofIdx : List Nat) (inverted : Bool)
    (oq cq : Option (List ℚ)) (tol : ℚ) :
    ∃ msg, MultiFingerGripperController.init motorType L dofIdx .default inverted
      "smooth_delta" oq cq tol = .error msg := by
  unfold MultiFingerGripperController.init
  split
  · exact ⟨_, rfl⟩
  · rw [if_pos (by decide)]
    exact ⟨_, rfl⟩

/-- C9: when `inverted` is set, `_preprocess_command` reflects the command
about the midpoint of the input range, `new = input_max - (old - input_min)`
(line 149), before the generic normalization of the base class; this
reflection is an involution, so applying it twice returns the original
command (input limits are rationals here, hence finite). -/
theorem inverted_reflection_involution (inputMin inputMax : ℚ) (cmd : List ℚ) :
    reflectCommand inputMin inputMax (reflectCommand inputMin inputMax cmd) = cmd := by
  rw [reflectCommand, reflectCommand, List.map_map]
  have h : ((fun x => inputMax - (x - inputMin)) ∘ fun x => inputMax - (x - inputMin))
      = fun x : ℚ => x := by
    funext x
    simp only [Function.comp]
    ring
  rw [h, List.map_id']

/-- C2: in binary mode, the mode-selection step of `compute_control`
(the branch cited by the claim, lines 206-211 in the merge resolution; see
`select_u`) returns open_qpos (when provided, else the control-type upper
limit at dof_idx) whenever `target[0] >= 0`, and closed_qpos (when provided,
else the control-type lower limit at dof_idx) otherwise.  The limit clamp of
step 3 (claim C3) applies to this value afterwards when the motor type is in
the clamped set. -/
theorem binary_mode_output (c : MultiFingerGripperController) (target : List ℚ)
    (cd : ControlDict) (ct : ControlType)
    (hmode : c.mode = "binary")
    (hct : ControlType.get_type c.motorType = some ct) :
    c.select_u target cd = .ok (if 0 ≤ target.headD 0
      then c.openQpos.getD (c.controlUpperAtDof ct)
      else c.closedQpos.getD (c.controlLowerAtDof ct)) := by
  simp [MultiFingerGripperController.select_u, hmode, hct]
  exact (apply_ite Except.ok _ _ _).symm

/-- Witness for C2 at concrete inputs: a position-motor binary controller
with open_qpos = [3/100] answers the open command with [3/100], and with the
close command answers the position lower limit [0] (closed_qpos absent). -/
theorem binary_mode_output_witness :
    posBinaryCtrl.select_u [1] midTravelDict = .ok [3 / 100]
  ∧ posBinaryCtrl.select_u [-1] midTravelDict = .ok [0] := by
  have h1 := binary_mode_output posBinaryCtrl [1] midTravelDict .POSITION
    (by simp [posBinaryCtrl, velBinaryCtrl])
    (by simp [posBinaryCtrl, velBinaryCtrl, ControlType.get_type])
  have h2 := binary_mode_output posBinaryCtrl [-1] midTravelDict .POSITION
    (by simp [posBinaryCtrl, velBinaryCtrl])
    (by simp [posBinaryCtrl, velBinaryCtrl, ControlType.get_type])
  refine ⟨h1.trans ?_, h2.trans ?_⟩ <;>
    simp [posBinaryCtrl, velBinaryCtrl, limitsA,
      MultiFingerGripperController.controlUpperAtDof,
      MultiFingerGripperController.controlLowerAtDof,
      ControlLimits.get, gather]

/-- C6: in ternary mode the mode-selection step of `compute_control` (lines
188-194) returns the control-type upper limit at dof_idx when
`target[0] > 0.33`, the control-type lower limit when `target[0] < -0.33`,
and otherwise the unchanged current value of the motor-type telemetry
channel `joint_<motor_type>` at dof_idx. -/
theorem ternary_mode_output (c : MultiFingerGripperController) (target : List ℚ)
    (cd : ControlDict) (ct : ControlType) (chan : List ℚ)
    (hmode : c.mode = "ternary")
    (hct : ControlType.get_type c.motorType = some ct)
    (hchan : cd.jointChannel c.motorType = some chan) :
    c.select_u target cd = .ok (if 33 / 100 < target.headD 0
      then c.controlUpperAtDof ct
      else if target.headD 0 < -(33 / 100)
      then c.controlLowerAtDof ct
      else gather chan c.dofIdx) := by
  simp [MultiFingerGripperController.select_u, hmode, hct, hchan]
  split_ifs <;> rfl

/-- Witness for C6 at concrete inputs: a position-motor ternary controller
answers target [1/2] with the upper limit, target [-1/2] with the lower
limit, and target [0] with the current joint position (held state). -/
theorem ternary_mode_output_witness :
    posTernaryCtrl.select_u [1 / 2] midTravelDict = .ok [5 / 100]
  ∧ posTernaryCtrl.select_u [-1 / 2] midTravelDict = .ok [0]
  ∧ posTernaryCtrl.select_u [0] midTravelDict = .ok [1 / 40] := by
  have h := fun t => ternary_mode_output posTernaryCtrl t midTravelDict .POSITION
    midTravelDict.joint_position
    (by simp [posTernaryCtrl, velBinaryCtrl])
    (by simp [posTernaryCtrl, velBinaryCtrl, ControlType.get_type])
    (by simp [posTernaryCtrl, velBinaryCtrl, ControlDict.jointChannel])
  refine ⟨(h [1 / 2]).trans ?_, (h [-1 / 2]).trans ?_, (h [0]).trans ?_⟩ <;>
    simp [posTernaryCtrl, velBinaryCtrl, limitsA, midTravelDict,
      MultiFingerGripperController.controlUpperAtDof,
      MultiFingerGripperController.controlLowerAtDof,
      ControlLimits.get, gather] <;> norm_num

/-- C10: for a binary-mode controller the no-op goal produced by
`compute_no_op_goal` is the zero target vector, and feeding it to the
mode-selection step takes the `target[0] >= 0` branch: the allegedly neutral
goal commands the fully-open control value (open_qpos when provided, else
the control-type upper limit), so it is not behaviour-preserving. -/
theorem no_op_goal_commands_open (c : MultiFingerGripperController)
    (cd : ControlDict) (ct : ControlType)
    (hmode : c.mode = "binary")
    (hct : ControlType.get_type c.motorType = some ct) :
    c.compute_no_op_goal = List.replicate 1 0
  ∧ c.select_u c.compute_no_op_goal cd
      = .ok (c.openQpos.getD (c.controlUpperAtDof ct)) := by
  have hdim : c.command_dim = 1 := by
    simp [MultiFingerGripperController.command_dim, hmode]
  constructor
  · simp [MultiFingerGripperController.compute_no_op_goal, hdim]
  · simp [MultiFingerGripperController.compute_no_op_goal, hdim,
      MultiFingerGripperController.select_u, hmode, hct]

/-- Witness for C10 at a concrete input: the velocity-motor binary controller
without open_qpos turns its zero no-op goal into the full-open velocity
command [1]. -/
theorem no_op_goal_commands_open_witness :
    velBinaryCtrl.select_u velBinaryCtrl.compute_no_op_goal midTravelDict = .ok [1] := by
  have h := no_op_goal_commands_open velBinaryCtrl midTravelDict .VELOCITY
    (by simp [velBinaryCtrl])
    (by simp [velBinaryCtrl, ControlType.get_type])
  refine h.2.trans ?_
  simp [velBinaryCtrl, limitsA, MultiFingerGripperController.controlUpperAtDof,
    ControlLimits.get, gather]

/-- C3: the claim states the limit clamp fires for motor types velocity and
effort.  The source however tests membership in the literal string set
velocity / "torque" (line 218), and "torque" is not a motor type the
constructor accepts (valid types are position, velocity, effort), so the
clamp silently never fires for effort motors, contradicting the limit
tolerance docstring (lines 95-96).  Concretely, with the joint at
`max_pos - 0.0005` and `limit_tolerance = 0.001`: under velocity control the
positive open command is zeroed and the negative close command passes
through unchanged, exactly as claimed, while the identical effort controller
returns its positive command unclamped. -/
theorem limit_clamp_skips_effort_motor :
    velBinaryCtrl.compute_control [1] nearLimitDict = .ok ([0], .FALSE)
  ∧ velBinaryCtrl.compute_control [-1] nearLimitDict = .ok ([-1], .FALSE)
  ∧ effBinaryCtrl.compute_control [1] nearLimitDict = .ok ([1], .FALSE) := by
  refine ⟨?_, ?_, ?_⟩ <;>
    simp [MultiFingerGripperController.compute_control,
      MultiFingerGripperController.select_u,
      MultiFingerGripperController.clampNearLimits,
      MultiFingerGripperController.update_grasping_state,
      MultiFingerGripperController.controlUpperAtDof,
      MultiFingerGripperController.controlLowerAtDof,
      gather, ControlLimits.get, ControlDict.jointChannel, ControlType.get_type,
      velBinaryCtrl, effBinaryCtrl, nearLimitDict, limitsA,
      POS_TOLERANCE, VEL_TOLERANCE] <;>
    norm_num

/-- C4: the claim states that with motor type velocity or effort and a mean
absolute last-issued control below VEL_TOLERANCE the grasp state becomes
Unknown.  The source tests the literal string set velocity / "torque"
(line 272), so an effort controller never matches it: with last control [0]
(mean absolute value 0 < VEL_TOLERANCE) and the finger stalled mid-travel,
the classification falls through to the position/velocity heuristic and
returns TRUE instead of UNKNOWN, contradicting the comment at lines 270
(velocity / torque control meaning the effort motor) and the claim. -/
theorem effort_zero_control_not_unknown :
    npMean (npAbs [0]) < VEL_TOLERANCE
  ∧ effStoppedCtrl.update_grasping_state midTravelDict = .ok .TRUE := by
  constructor
  · norm_num [npMean, npAbs, VEL_TOLERANCE]
  · simp [MultiFingerGripperController.update_grasping_state,
      gather, withinLimits, allBelow, npMean, npAbs, npSub,
      effStoppedCtrl, velBinaryCtrl, midTravelDict, limitsA,
      POS_TOLERANCE, VEL_TOLERANCE]
    norm_num

/-- C8: `command_dim` (lines 325-327) is the number of controlled joints
exactly in independent mode and 1 in every other mode; since `_mode` and
`dof_idx` are assigned only in `__init__` and never reassigned, the equality
holds over the whole lifetime of an instance. -/
theorem command_dim_by_mode (c : MultiFingerGripperController) :
    (c.mode = "independent" → c.command_dim = c.dofIdx.length)
  ∧ (c.mode ≠ "independent" → c.command_dim = 1) := by
  constructor <;> intro h <;> simp [MultiFingerGripperController.command_dim, h]

/-- Witness for C8 at concrete controllers: an independent-mode controller
over two joints has command_dim 2, a binary-mode controller has
command_dim 1. -/
theorem command_dim_by_mode_witness :
    indepCtrl.command_dim = indepCtrl.dofIdx.length
  ∧ velBinaryCtrl.command_dim = 1 :=
  ⟨(command_dim_by_mode indepCtrl).1 (by simp [indepCtrl, velBinaryCtrl]),
   (command_dim_by_mode velBinaryCtrl).2 (by simp [velBinaryCtrl])⟩

/-- C5: for a non-independent controller with a previously issued control
that reaches the classification branch of `_update_grasping_state` (neither
position control near the last target nor velocity/effort control with
near-zero last control, per the claim), with a validly configured limit
tolerance (the assertion at line 256 requires POS_TOLERANCE to exceed it)
and finger positions within their declared position limits, the grasp state
is TRUE exactly when the mean distances of finger_pos from the lower and
from the upper position limit both exceed POS_TOLERANCE and every component
of |finger_vel| is below VEL_TOLERANCE, and FALSE otherwise.  The motor-type
hypothesis restricts to the types a constructed controller can carry; it
rules out the string "torque", for which the source (line 272) would take
the Unknown branch instead. -/
theorem grasp_state_classification (c : MultiFingerGripperController)
    (cd : ControlDict) (ctrl : List ℚ)
    (hmode : ¬ c.mode = "independent")
    (hctrl : c.control = some ctrl)
    (htol : c.limitTolerance < POS_TOLERANCE)
    (hmotor : c.motorType ∈ ControlType.VALID_TYPES_STR)
    (hpos : ¬ (c.motorType = "position"
      ∧ npMean (npAbs (npSub (gather cd.joint_position c.dofIdx) ctrl)) < POS_TOLERANCE))
    (hvel : ¬ ((c.motorType = "velocity" ∨ c.motorType = "effort")
      ∧ npMean (npAbs ctrl) < VEL_TOLERANCE))
    (hin : withinLimits (gather c.controlLimits.position.1 c.dofIdx)
      (gather cd.joint_position c.dofIdx)
      (gather c.controlLimits.position.2 c.dofIdx)) :
    c.update_grasping_state cd = .ok
      (if (npMean (npSub (gather cd.joint_position c.dofIdx)
            (gather c.controlLimits.position.1 c.dofIdx)) > POS_TOLERANCE
          ∧ npMean (npSub (gather c.controlLimits.position.2 c.dofIdx)
            (gather cd.joint_position c.dofIdx)) > POS_TOLERANCE)
          ∧ allBelow (npAbs (gather cd.joint_velocity c.dofIdx)) VEL_TOLERANCE
        then .TRUE else .FALSE) := by
  have htorque : ¬ ((c.motorType = "velocity" ∨ c.motorType = "torque")
      ∧ npMean (npAbs ctrl) < VEL_TOLERANCE) := by
    rintro ⟨hv | ht, hsmall⟩
    · exact hvel ⟨Or.inl hv, hsmall⟩
    · rw [ht] at hmotor
      simp [ControlType.VALID_TYPES_STR] at hmotor
  rw [MultiFingerGripperController.update_grasping_state, if_neg hmode, hctrl]
  simp only [Option.elim]
  rw [if_neg (not_not_intro htol), if_neg hpos, if_neg htorque,
    if_neg (not_not_intro hin)]

/-- Witness for C5 at a concrete input: a velocity-motor controller with
last control [1/2] and the finger stalled mid-travel is classified TRUE. -/
theorem grasp_state_classification_witness :
    velMovingCtrl.update_grasping_state midTravelDict = .ok .TRUE := by
  have h := grasp_state_classification velMovingCtrl midTravelDict [1 / 2]
    (by simp [velMovingCtrl, velBinaryCtrl])
    (by rfl)
    (by norm_num [velMovingCtrl, velBinaryCtrl, POS_TOLERANCE])
    (by simp [velMovingCtrl, velBinaryCtrl, ControlType.VALID_TYPES_STR])
    (by simp [velMovingCtrl, velBinaryCtrl])
    (by norm_num [velMovingCtrl, velBinaryCtrl, npMean, npAbs, VEL_TOLERANCE,
      abs_of_pos])
    (by norm_num [withinLimits, gather, velMovingCtrl, velBinaryCtrl, limitsA,
      midTravelDict])
  refine h.trans ?_
  norm_num [gather, npMean, npSub, npAbs, allBelow, velMovingCtrl, velBinaryCtrl,
    limitsA, midTravelDict, POS_TOLERANCE, VEL_TOLERANCE]
